import Mathlib

/-
Shallow embedding of the transaction data model of
src/backend/models/Transaction.js (a Mongoose schema with pre-save
middleware, virtuals, static aggregation queries and instance methods).

Modelling conventions
- A document is a `Transaction` structure; fields hold the values as stored
  in the document, that is after the schema setters (trim, lowercase on
  enum-backed strings) have been applied at assignment time, which this
  embedding does not model separately.
- JavaScript numbers that carry money are modelled as `Int` (whole units);
  the claims under study only concern signs, absolute values and sums.
- JavaScript `Date` values are modelled at day granularity by `DateT`
  (year, month 1-12, day), ordered lexicographically; the `$year` and
  `$month` aggregation operators read the stored fields directly.  The
  day-of-month overflow normalization of `Date.setMonth` is not modelled;
  all concrete dates used below keep day-of-month at most 28.
- `ObjectId` values are modelled as `Nat`.
- Fallible operations return `Except (List String) _`, the error carrying
  the list of messages of the Mongoose ValidationError (one per violated
  constraint, all collected).
- Mongoose runs document validation before the user pre-save hooks, and
  runs the pre-save hooks in registration order: the posted-date stamping
  hook (Transaction.js line 218) is registered before the sign
  normalization hook (line 226).
-/

set_option maxRecDepth 16384

namespace FinanceTracker

/-- Calendar date at day granularity, standing in for a JavaScript Date. -/
structure DateT where
  year : Int
  month : Nat
  day : Nat
deriving DecidableEq, Repr

/-- Lexicographic comparison of dates, mirroring Date comparison. -/
def DateT.leb (a b : DateT) : Bool :=
  decide (a.year < b.year) ||
    (decide (a.year = b.year) &&
      (decide (a.month < b.month) ||
        (decide (a.month = b.month) && decide (a.day ≤ b.day))))

/-- Transaction type enum of the schema: income, expense or transfer. -/
inductive TxType where
  | income
  | expense
  | transfer
deriving DecidableEq, Repr

/-- Status enum of the schema: pending, posted, cancelled or failed. -/
inductive TxStatus where
  | pending
  | posted
  | cancelled
  | failed
deriving DecidableEq, Repr

/-- Recurrence frequency enum of the schema. -/
inductive Frequency where
  | daily
  | weekly
  | monthly
  | yearly
deriving DecidableEq, Repr

/-- Category subdocument: primary (required), secondary, plaidCategoryId. -/
structure Category where
  primary : String
  secondary : Option String
  plaidCategoryId : Option String
deriving DecidableEq, Repr

/-- Merchant subdocument: name (max length 100), id, website, logo. -/
structure Merchant where
  name : Option String
  id : Option String
  website : Option String
  logo : Option String
deriving DecidableEq, Repr

/-- Attachment subdocument of the attachments array. -/
structure Attachment where
  filename : String
  originalName : String
  mimeType : String
  size : Nat
  url : String
  uploadedAt : DateT
deriving DecidableEq, Repr

/-- Recurring subdocument: flag, frequency, interval (min 1), dates, ref. -/
structure Recurring where
  isRecurring : Bool
  frequency : Option Frequency
  interval : Nat
  nextDueDate : Option DateT
  endDate : Option DateT
  originalTransactionId : Option Nat
deriving DecidableEq, Repr

/-- Entry of the split.splits array. -/
structure SplitEntry where
  user : Option Nat
  amount : Option Int
  percentage : Option Int
  description : Option String
deriving DecidableEq, Repr

/-- Split subdocument: flag, total amount, shares. -/
structure SplitInfo where
  isSplit : Bool
  totalAmount : Option Int
  splits : List SplitEntry
deriving DecidableEq, Repr

/-- Address part of the location subdocument. -/
structure Address where
  street : Option String
  city : Option String
  state : Option String
  zipCode : Option String
  country : Option String
deriving DecidableEq, Repr

/-- Coordinates part of the location subdocument; latitude and longitude
are numbers in the source, modelled as integers since no claim reads them. -/
structure Coordinates where
  latitude : Option Int
  longitude : Option Int
deriving DecidableEq, Repr

/-- Location subdocument. -/
structure Location where
  address : Address
  coordinates : Coordinates
deriving DecidableEq, Repr

/-- Metadata subdocument; the two Mixed-typed fields (plaidData,
customFields) carry no schema constraints and are not read by any
operation under study, so only the typed fields are modelled. -/
structure TxMetadata where
  importSource : Option String
  importDate : Option DateT
deriving DecidableEq, Repr

/-- Transaction document of transactionSchema.  The required reference
fields user and account are modelled as plain identifiers (they are never
absent in a well-typed document); the optional ones are Option-typed.
The field _id is the document identity (undefined on an unsaved copy). -/
structure Transaction where
  _id : Option Nat
  user : Nat
  account : Nat
  plaidTransactionId : Option String
  amount : Int
  currency : String
  type : TxType
  category : Category
  description : String
  merchant : Merchant
  date : DateT
  postedDate : Option DateT
  status : TxStatus
  tags : List String
  notes : String
  attachments : List Attachment
  recurring : Recurring
  split : SplitInfo
  location : Location
  metadata : TxMetadata
  isReconciled : Bool
  reconciliationDate : Option DateT
  isHidden : Bool
  isArchived : Bool
deriving DecidableEq, Repr

/-- Currency enum of the schema. -/
def allowedCurrencies : List String :=
  ["USD", "EUR", "GBP", "CAD", "AUD", "JPY", "CHF"]

/-- Document validation, collecting one message per violated constraint,
exactly as Mongoose collects all invalid paths of a ValidationError
rather than stopping at the first.  Validators from transactionSchema:
the non-zero amount validator, the currency enum, the required primary
category and description (a required string fails when empty), the
maxlength limits on description, merchant.name and notes, and the min 1
bound on recurring.interval.  The required fields user, account, type and
date are present by construction of the `Transaction` type. -/
def validateTx (t : Transaction) : List String :=
  (if t.amount = 0 then ["Amount cannot be zero"] else []) ++
  (if t.currency ∈ allowedCurrencies then []
    else ["Currency is not a valid enum value"]) ++
  (if t.category.primary = "" then ["Primary category is required"] else []) ++
  (if t.description = "" then ["Description is required"] else []) ++
  (if 200 < t.description.length
    then ["Description cannot exceed 200 characters"] else []) ++
  (match t.merchant.name with
    | some n =>
      if 100 < n.length then ["Merchant name cannot exceed 100 characters"]
      else []
    | none => []) ++
  (if 500 < t.notes.length then ["Notes cannot exceed 500 characters"] else []) ++
  (if t.recurring.interval < 1
    then ["Recurring interval must be at least 1"] else [])

/-- First pre-save hook (Transaction.js lines 218-223): when status is
posted and postedDate is not set, stamp postedDate with the current time. -/
def stampPostedDate (now : DateT) (t : Transaction) : Transaction :=
  if t.status = TxStatus.posted ∧ t.postedDate = none then
    { t with postedDate := some now }
  else t

/-- Second pre-save hook (Transaction.js lines 226-233): flip the sign of
the amount so that income is non-negative and expense is non-positive;
transfer amounts are left alone. -/
def normalizeSign (t : Transaction) : Transaction :=
  if t.type = TxType.income ∧ t.amount < 0 then
    { t with amount := |t.amount| }
  else if t.type = TxType.expense ∧ 0 < t.amount then
    { t with amount := -|t.amount| }
  else t

/-- The pre-save middleware pipeline in registration order: the
posted-date stamping hook is registered first (line 218), the sign
normalization hook second (line 226). -/
def applyPreSaveHooks (now : DateT) (t : Transaction) : Transaction :=
  normalizeSign (stampPostedDate now t)

/-- Mongoose save: validate the document (validation runs before the user
pre-save hooks and collects every violated constraint), then run the
pre-save hooks and persist.  The result is the persisted document. -/
def save (now : DateT) (t : Transaction) : Except (List String) Transaction :=
  match validateTx t with
  | [] => Except.ok (applyPreSaveHooks now t)
  | errs => Except.error errs

/-- Model.create builds a document and saves it, so it is save. -/
def create (now : DateT) (t : Transaction) : Except (List String) Transaction :=
  save now t

/-- The index on plaidTransactionId is declared sparse and without the
unique option, both in the field definition (Transaction.js lines 16-20)
and in the explicit index (line 215), so MongoDB builds a non-unique
index and never raises a duplicate-key error for repeated values. -/
def plaidTransactionIdIndexUnique : Bool := false

/-- Insertion of a new document into the transactions collection: save
the document, and reject it with a duplicate-key error only when a unique
index on plaidTransactionId would be violated.  Since the index is not
unique, the duplicate check never fires. -/
def insert (now : DateT) (coll : List Transaction) (t : Transaction) :
    Except (List String) (List Transaction) :=
  match save now t with
  | Except.error e => Except.error e
  | Except.ok doc =>
    if plaidTransactionIdIndexUnique &&
        doc.plaidTransactionId.isSome &&
        coll.any (fun u => u.plaidTransactionId == doc.plaidTransactionId) then
      Except.error ["duplicate key error on plaidTransactionId"]
    else
      Except.ok (coll ++ [doc])

/-- Virtual absoluteAmount (Transaction.js line 185). -/
def absoluteAmount (t : Transaction) : Int := |t.amount|

/-- Rendering of Math.abs(amount).toFixed(2) for whole-unit amounts: the
digits followed by two zero decimal places. -/
def toFixed2 (n : Nat) : String := toString n ++ ".00"

/-- Virtual formattedAmount (Transaction.js lines 190-193): a sign
character that is plus exactly for income and minus otherwise, then the
currency code, a space, and the absolute amount with two decimals. -/
def formattedAmount (t : Transaction) : String :=
  (if t.type = TxType.income then "+" else "-") ++
    t.currency ++ " " ++ toFixed2 t.amount.natAbs

/-- Lowercasing of a string, modelling String.prototype.toLowerCase on
the ASCII strings used by the schema: every character is lowercased. -/
def lowercase (s : String) : String := String.mk (s.data.map Char.toLower)

/-- Instance method duplicate (Transaction.js lines 306-317): copy every
field of the document, then clear the identity, reset date to now, reset
status to pending, prefix the description with "Copy of ", clear
attachments, notes and the reconciliation state.  The copy is returned
unsaved; the original document is not modified. -/
def duplicate (now : DateT) (t : Transaction) : Transaction :=
  { t with
    _id := none
    date := now
    status := TxStatus.pending
    description := "Copy of " ++ t.description
    attachments := []
    notes := ""
    isReconciled := false
    reconciliationDate := none }

/-- Instance method markReconciled (Transaction.js lines 320-324). -/
def markReconciled (now : DateT) (t : Transaction) :
    Except (List String) Transaction :=
  save now { t with isReconciled := true, reconciliationDate := some now }

/-- Instance method addTag (Transaction.js lines 327-332): push the
lowercased tag unless it is already present, then save. -/
def addTag (now : DateT) (t : Transaction) (tag : String) :
    Except (List String) Transaction :=
  if t.tags.contains (lowercase tag) then save now t
  else save now { t with tags := t.tags ++ [lowercase tag] }

/-- Instance method removeTag (Transaction.js lines 335-338): keep the
tags different from the lowercased tag, then save. -/
def removeTag (now : DateT) (t : Transaction) (tag : String) :
    Except (List String) Transaction :=
  save now { t with tags := t.tags.filter (fun s => s != lowercase tag) }

/-- Keys of a group-by stage: the distinct key values occurring in the
matched documents (MongoDB emits one group per distinct key). -/
def groupKeys {α κ : Type} [DecidableEq κ] (key : α → κ) (l : List α) :
    List κ :=
  (l.map key).dedup

/-- Match stage of getSpendingByCategory: the user, expense type, and an
inclusive date range. -/
def spendingMatch (userId : Nat) (startDate endDate : DateT)
    (t : Transaction) : Bool :=
  t.user == userId && t.type == TxType.expense &&
    DateT.leb startDate t.date && DateT.leb t.date endDate

/-- Output row of getSpendingByCategory: the group key (the primary
category), the summed absolute amounts, and the document count. -/
structure CategorySpending where
  category : String
  totalAmount : Int
  count : Nat
deriving DecidableEq, Repr

/-- Group stage of getSpendingByCategory for one primary category:
totalAmount sums the absolute amounts and count counts the documents. -/
def spendingGroup (matched : List Transaction) (c : String) :
    CategorySpending :=
  { category := c
    totalAmount :=
      ((matched.filter (fun t => t.category.primary == c)).map
        (fun t => |t.amount|)).sum
    count := (matched.filter (fun t => t.category.primary == c)).length }

/-- Sort order of getSpendingByCategory: totalAmount descending. -/
def spendingGE (a b : CategorySpending) : Prop :=
  b.totalAmount ≤ a.totalAmount

instance : DecidableRel spendingGE := fun a b => by
  unfold spendingGE; infer_instance

instance : IsTotal CategorySpending spendingGE :=
  ⟨fun a b => Int.le_total b.totalAmount a.totalAmount⟩

instance : IsTrans CategorySpending spendingGE :=
  ⟨fun _ _ _ hab hbc => le_trans hbc hab⟩

/-- Static getSpendingByCategory (Transaction.js lines 255-275): match
the expense transactions of the user in the inclusive date range, group
them by primary category summing absolute amounts and counting, and sort
by total amount descending. -/
def getSpendingByCategory (txs : List Transaction) (userId : Nat)
    (startDate endDate : DateT) : List CategorySpending :=
  List.insertionSort spendingGE
    ((groupKeys (fun t => t.category.primary)
        (txs.filter (spendingMatch userId startDate endDate))).map
      (spendingGroup (txs.filter (spendingMatch userId startDate endDate))))

/-- Subtraction of a number of months from a date, modelling
startDate.setMonth(startDate.getMonth() - months) with year borrow; the
day of month is kept (overflow normalization not modelled, see header). -/
def monthsAgo (d : DateT) (n : Nat) : DateT :=
  let m0 : Int := d.year * 12 + ((d.month : Int) - 1) - (n : Int)
  { year := m0.fdiv 12, month := (m0.emod 12).toNat + 1, day := d.day }

/-- Output row of getMonthlyTrends: the compound group key (calendar
year, calendar month, transaction type) and the summed signed amounts. -/
structure MonthlyTrend where
  year : Int
  month : Nat
  type : TxType
  totalAmount : Int
deriving DecidableEq, Repr

/-- Group stage of getMonthlyTrends for one (year, month, type) key:
totalAmount sums the signed amounts. -/
def trendGroup (matched : List Transaction) (k : Int × Nat × TxType) :
    MonthlyTrend :=
  { year := k.1
    month := k.2.1
    type := k.2.2
    totalAmount :=
      ((matched.filter
          (fun t => (t.date.year, t.date.month, t.type) == k)).map
        Transaction.amount).sum }

/-- Sort order of getMonthlyTrends: year ascending then month ascending
(the type component of the key is not a sort key). -/
def trendChron (a b : MonthlyTrend) : Prop :=
  a.year < b.year ∨ (a.year = b.year ∧ a.month ≤ b.month)

instance : DecidableRel trendChron := fun a b => by
  unfold trendChron; infer_instance

instance : IsTotal MonthlyTrend trendChron := ⟨by
  intro a b; unfold trendChron; omega⟩

instance : IsTrans MonthlyTrend trendChron := ⟨by
  intro a b c hab hbc; unfold trendChron at *; omega⟩

/-- Static getMonthlyTrends (Transaction.js lines 278-303): compute the
start date by stepping the current date back by the given number of
months, match the transactions of the user dated on or after that start
date (the match stage has no upper bound), group them by (calendar year,
calendar month, type) summing signed amounts, and sort by year then month
ascending. -/
def getMonthlyTrends (txs : List Transaction) (userId : Nat) (now : DateT)
    (months : Nat) : List MonthlyTrend :=
  List.insertionSort trendChron
    ((groupKeys (fun t => (t.date.year, t.date.month, t.type))
        (txs.filter
          (fun t => t.user == userId && DateT.leb (monthsAgo now months) t.date))).map
      (trendGroup
        (txs.filter
          (fun t => t.user == userId && DateT.leb (monthsAgo now months) t.date))))

/-- Default argument of getMonthlyTrends: twelve months. -/
def getMonthlyTrendsDefault (txs : List Transaction) (userId : Nat)
    (now : DateT) : List MonthlyTrend :=
  getMonthlyTrends txs userId now 12

/-- Predicate written after the words of the specification sentence about
getMonthlyTrends, for refinement comparison with the code: a date lies
within the trailing window of n months when it is between the stepped-back
start date and the current date. -/
def claimedWithinTrailingMonths (now : DateT) (n : Nat) (d : DateT) : Bool :=
  DateT.leb (monthsAgo now n) d && DateT.leb d now

/-- Variant of getMonthlyTrends written after the words of the
specification, for refinement comparison: identical pipeline, but the
match stage keeps only transactions dated within the trailing window
(bounded above by the current date). -/
def getMonthlyTrendsClaimed (txs : List Transaction) (userId : Nat)
    (now : DateT) (months : Nat) : List MonthlyTrend :=
  List.insertionSort trendChron
    ((groupKeys (fun t => (t.date.year, t.date.month, t.type))
        (txs.filter
          (fun t => t.user == userId && claimedWithinTrailingMonths now months t.date))).map
      (trendGroup
        (txs.filter
          (fun t => t.user == userId && claimedWithinTrailingMonths now months t.date))))

/- Helper lemmas about the save pipeline. -/

theorem save_ok_inv {now : DateT} {t u : Transaction}
    (h : save now t = Except.ok u) : u = applyPreSaveHooks now t := by
  unfold save at h
  split at h
  · exact (Except.ok.inj h).symm
  · exact Except.noConfusion h

theorem save_ok_validate {now : DateT} {t u : Transaction}
    (h : save now t = Except.ok u) : validateTx t = [] := by
  unfold save at h
  split at h
  · assumption
  · exact Except.noConfusion h

theorem stampPostedDate_type (now : DateT) (t : Transaction) :
    (stampPostedDate now t).type = t.type := by
  unfold stampPostedDate; split <;> rfl

theorem stampPostedDate_amount (now : DateT) (t : Transaction) :
    (stampPostedDate now t).amount = t.amount := by
  unfold stampPostedDate; split <;> rfl

theorem stampPostedDate_status (now : DateT) (t : Transaction) :
    (stampPostedDate now t).status = t.status := by
  unfold stampPostedDate; split <;> rfl

theorem stampPostedDate_tags (now : DateT) (t : Transaction) :
    (stampPostedDate now t).tags = t.tags := by
  unfold stampPostedDate; split <;> rfl

theorem stampPostedDate_postedDate (now : DateT) (t : Transaction) :
    (stampPostedDate now t).postedDate =
      if t.status = TxStatus.posted ∧ t.postedDate = none then some now
      else t.postedDate := by
  unfold stampPostedDate; split <;> rfl

theorem normalizeSign_type (t : Transaction) :
    (normalizeSign t).type = t.type := by
  unfold normalizeSign
  split
  · rfl
  split
  · rfl
  · rfl

theorem normalizeSign_status (t : Transaction) :
    (normalizeSign t).status = t.status := by
  unfold normalizeSign
  split
  · rfl
  split
  · rfl
  · rfl

theorem normalizeSign_postedDate (t : Transaction) :
    (normalizeSign t).postedDate = t.postedDate := by
  unfold normalizeSign
  split
  · rfl
  split
  · rfl
  · rfl

theorem normalizeSign_tags (t : Transaction) :
    (normalizeSign t).tags = t.tags := by
  unfold normalizeSign
  split
  · rfl
  split
  · rfl
  · rfl

theorem normalizeSign_amount (t : Transaction) :
    (normalizeSign t).amount =
      if t.type = TxType.income ∧ t.amount < 0 then |t.amount|
      else if t.type = TxType.expense ∧ 0 < t.amount then -|t.amount|
      else t.amount := by
  unfold normalizeSign
  split
  · rfl
  split
  · rfl
  · rfl

theorem applyPreSaveHooks_type (now : DateT) (t : Transaction) :
    (applyPreSaveHooks now t).type = t.type := by
  unfold applyPreSaveHooks
  rw [normalizeSign_type, stampPostedDate_type]

theorem applyPreSaveHooks_status (now : DateT) (t : Transaction) :
    (applyPreSaveHooks now t).status = t.status := by
  unfold applyPreSaveHooks
  rw [normalizeSign_status, stampPostedDate_status]

theorem applyPreSaveHooks_tags (now : DateT) (t : Transaction) :
    (applyPreSaveHooks now t).tags = t.tags := by
  unfold applyPreSaveHooks
  rw [normalizeSign_tags, stampPostedDate_tags]

theorem applyPreSaveHooks_postedDate (now : DateT) (t : Transaction) :
    (applyPreSaveHooks now t).postedDate =
      if t.status = TxStatus.posted ∧ t.postedDate = none then some now
      else t.postedDate := by
  unfold applyPreSaveHooks
  rw [normalizeSign_postedDate, stampPostedDate_postedDate]

theorem applyPreSaveHooks_amount (now : DateT) (t : Transaction) :
    (applyPreSaveHooks now t).amount =
      if t.type = TxType.income ∧ t.amount < 0 then |t.amount|
      else if t.type = TxType.expense ∧ 0 < t.amount then -|t.amount|
      else t.amount := by
  unfold applyPreSaveHooks
  rw [normalizeSign_amount, stampPostedDate_type, stampPostedDate_amount]

theorem create_error_of_validate_ne_nil {now : DateT} {t : Transaction}
    (h : validateTx t ≠ []) :
    create now t = Except.error (validateTx t) := by
  cases hv : validateTx t with
  | nil => exact absurd hv h
  | cons a l =>
    unfold create save
    rw [hv]

/-- General shape of the two aggregation pipelines: match, group by a key
(one group per distinct key value, carrying data computed from the list of
matched documents), then sort.  The sorted output is a permutation of one
group per distinct key, hence: group labels are distinct, a label occurs
exactly when some matched document carries it, every row is the group of
its key, and the output is sorted. -/
theorem grouped_sorted_spec {α κ β : Type} [DecidableEq κ]
    (r : β → β → Prop) [DecidableRel r] [IsTotal β r] [IsTrans β r]
    (key : α → κ) (mk : κ → β) (tagOf : β → κ)
    (htag : ∀ k, tagOf (mk k) = k) (F : List α) :
    ((List.insertionSort r ((groupKeys key F).map mk)).map tagOf).Nodup ∧
    (∀ c, c ∈ (List.insertionSort r ((groupKeys key F).map mk)).map tagOf ↔
      c ∈ F.map key) ∧
    (∀ g ∈ List.insertionSort r ((groupKeys key F).map mk),
      ∃ k, k ∈ F.map key ∧ g = mk k) ∧
    (List.insertionSort r ((groupKeys key F).map mk)).Pairwise r := by
  have hperm := List.perm_insertionSort r ((groupKeys key F).map mk)
  have hmapmk : ((groupKeys key F).map mk).map tagOf = groupKeys key F := by
    rw [List.map_map]
    have hcomp : tagOf ∘ mk = id := funext htag
    rw [hcomp, List.map_id]
  refine ⟨?_, ?_, ?_, ?_⟩
  · refine ((hperm.map tagOf).nodup_iff).mpr ?_
    rw [hmapmk]
    exact List.nodup_dedup _
  · intro c
    rw [(hperm.map tagOf).mem_iff, hmapmk]
    exact List.mem_dedup
  · intro g hg
    obtain ⟨k, hk, heq⟩ := List.mem_map.mp (hperm.mem_iff.mp hg)
    exact ⟨k, List.mem_dedup.mp hk, heq.symm⟩
  · exact List.sorted_insertionSort r _

/- Concrete documents used by the witnesses and counterexamples. -/

/-- Current time used by the concrete scenarios. -/
def day0 : DateT := ⟨2026, 10, 11⟩

/-- Valid baseline expense document. -/
def baseTx : Transaction :=
  { _id := some 1
    user := 1
    account := 1
    plaidTransactionId := none
    amount := -50
    currency := "USD"
    type := TxType.expense
    category := ⟨"Food", none, none⟩
    description := "Lunch"
    merchant := ⟨none, none, none, none⟩
    date := ⟨2026, 9, 1⟩
    postedDate := none
    status := TxStatus.pending
    tags := []
    notes := ""
    attachments := []
    recurring := ⟨false, none, 1, none, none, none⟩
    split := ⟨false, none, []⟩
    location := ⟨⟨none, none, none, none, none⟩, ⟨none, none⟩⟩
    metadata := ⟨none, none⟩
    isReconciled := false
    reconciliationDate := none
    isHidden := false
    isArchived := false }

/-- Income document with a caller-supplied negative amount. -/
def txIncomeNeg : Transaction :=
  { baseTx with type := TxType.income, amount := -7 }

/-- Pending-dated document whose status is posted without a postedDate. -/
def txPosted : Transaction :=
  { baseTx with status := TxStatus.posted }

/-- C2: after a successful create or save, an income document carries a
non-negative amount, an expense document a non-positive amount, and a
transfer document keeps exactly the caller-supplied amount. -/
theorem amount_sign_normalized_after_save (now : DateT) (t u : Transaction)
    (h : create now t = Except.ok u ∨ save now t = Except.ok u) :
    (u.type = TxType.income → 0 ≤ u.amount) ∧
    (u.type = TxType.expense → u.amount ≤ 0) ∧
    (u.type = TxType.transfer → u.amount = t.amount) := by
  have hu : u = applyPreSaveHooks now t := by
    rcases h with h | h
    · exact save_ok_inv h
    · exact save_ok_inv h
  subst hu
  refine ⟨?_, ?_, ?_⟩ <;>
      rw [applyPreSaveHooks_type, applyPreSaveHooks_amount] <;> intro hty
  · split_ifs with h1 h2
    · exact abs_nonneg _
    · rw [hty] at h2
      exact absurd h2.1 (by decide)
    · simp [hty] at h1
      omega
  · split_ifs with h1 h2
    · rw [hty] at h1
      exact absurd h1.1 (by decide)
    · exact neg_nonpos.mpr (abs_nonneg _)
    · simp [hty] at h2
      omega
  · split_ifs with h1 h2
    · rw [hty] at h1
      exact absurd h1.1 (by decide)
    · rw [hty] at h2
      exact absurd h2.1 (by decide)
    · rfl

/-- Witness for C2 at a concrete income document with amount -7: the save
succeeds and the saved amount is non-negative. -/
theorem amount_sign_normalized_witness :
    save day0 txIncomeNeg = Except.ok (applyPreSaveHooks day0 txIncomeNeg) ∧
    0 ≤ (applyPreSaveHooks day0 txIncomeNeg).amount :=
  ⟨rfl, (amount_sign_normalized_after_save day0 txIncomeNeg
      (applyPreSaveHooks day0 txIncomeNeg) (Or.inr rfl)).1 (by decide)⟩

/-- C5: a successful save stamps postedDate with the save time exactly
when the status is posted while postedDate was absent, leaves postedDate
unchanged in every other case, and hence a posted document always has a
postedDate after a save. -/
theorem posted_date_stamping (now : DateT) (t u : Transaction)
    (h : save now t = Except.ok u) :
    (t.status = TxStatus.posted ∧ t.postedDate = none →
      u.postedDate = some now) ∧
    (t.status ≠ TxStatus.posted ∨ t.postedDate ≠ none →
      u.postedDate = t.postedDate) ∧
    (u.status = TxStatus.posted → u.postedDate ≠ none) := by
  have hu : u = applyPreSaveHooks now t := save_ok_inv h
  subst hu
  refine ⟨fun hc => ?_, fun hc => ?_, fun hp => ?_⟩
  · rw [applyPreSaveHooks_postedDate, if_pos hc]
  · rw [applyPreSaveHooks_postedDate, if_neg (not_and_or.mpr hc)]
  · rw [applyPreSaveHooks_status] at hp
    rw [applyPreSaveHooks_postedDate]
    split_ifs with hc
    · simp
    · simp [hp] at hc
      exact hc

/-- Witness for C5 at a concrete posted document without a postedDate:
after the save the postedDate equals the save time. -/
theorem posted_date_stamping_witness :
    (applyPreSaveHooks day0 txPosted).postedDate = some day0 :=
  (posted_date_stamping day0 txPosted (applyPreSaveHooks day0 txPosted)
      rfl).1 ⟨rfl, rfl⟩

/-- C6: duplicate returns a copy whose identity is cleared, date is reset
to the current time, status is reset to pending, description is the
original description prefixed with Copy of, attachments, notes and the
reconciliation state are cleared, and every other field equals the
original; the original document itself is not modified. -/
theorem duplicate_resets_exactly (now : DateT) (t : Transaction) :
    (duplicate now t)._id = none ∧
    (duplicate now t).date = now ∧
    (duplicate now t).status = TxStatus.pending ∧
    (duplicate now t).description = "Copy of " ++ t.description ∧
    (duplicate now t).attachments = [] ∧
    (duplicate now t).notes = "" ∧
    (duplicate now t).isReconciled = false ∧
    (duplicate now t).reconciliationDate = none ∧
    (duplicate now t).user = t.user ∧
    (duplicate now t).account = t.account ∧
    (duplicate now t).plaidTransactionId = t.plaidTransactionId ∧
    (duplicate now t).amount = t.amount ∧
    (duplicate now t).currency = t.currency ∧
    (duplicate now t).type = t.type ∧
    (duplicate now t).category = t.category ∧
    (duplicate now t).merchant = t.merchant ∧
    (duplicate now t).postedDate = t.postedDate ∧
    (duplicate now t).tags = t.tags ∧
    (duplicate now t).recurring = t.recurring ∧
    (duplicate now t).split = t.split ∧
    (duplicate now t).location = t.location ∧
    (duplicate now t).metadata = t.metadata ∧
    (duplicate now t).isHidden = t.isHidden ∧
    (duplicate now t).isArchived = t.isArchived :=
  ⟨rfl, rfl, rfl, rfl, rfl, rfl, rfl, rfl, rfl, rfl, rfl, rfl, rfl,
    rfl, rfl, rfl, rfl, rfl, rfl, rfl, rfl, rfl, rfl, rfl⟩

/-- C9: the pre-save pipeline is a deterministic function of the document
and the save time, and its result is exactly sign normalization followed
by posted-date stamping; the two hooks touch disjoint fields, so the
registration order of the source produces this same composition. -/
theorem pre_save_order_deterministic (now : DateT) (t : Transaction) :
    applyPreSaveHooks now t = stampPostedDate now (normalizeSign t) ∧
    applyPreSaveHooks now t = normalizeSign (stampPostedDate now t) := by
  refine ⟨?_, rfl⟩
  obtain ⟨i, us, ac, pid, am, cu, ty, cat, de, me, dt, pd, st, tg, nt, att,
    rc, sp, lc, md, ir, rd, ih, ia⟩ := t
  unfold applyPreSaveHooks normalizeSign stampPostedDate
  dsimp only
  split_ifs <;> rfl

/-- C10: the formatted amount string begins with a plus sign exactly when
the type is income and with a minus sign for every other type, including a
transfer with a positive amount; the numeric part is the absolute value of
the amount, so negating the amount leaves the rendering unchanged. -/
theorem formatted_amount_sign (t : Transaction) :
    ((formattedAmount t).data.head? = some '+' ↔ t.type = TxType.income) ∧
    (t.type ≠ TxType.income → (formattedAmount t).data.head? = some '-') ∧
    (t.type = TxType.transfer → 0 < t.amount →
      (formattedAmount t).data.head? = some '-') ∧
    formattedAmount { t with amount := -t.amount } = formattedAmount t := by
  have hminus : ¬t.type = TxType.income →
      (formattedAmount t).data.head? = some '-' := by
    intro h
    unfold formattedAmount
    rw [if_neg h]
    simp [String.data_append]
  refine ⟨⟨?_, ?_⟩, hminus, fun hty _ => hminus (by rw [hty]; decide), ?_⟩
  · intro h
    by_contra hne
    rw [hminus hne] at h
    exact absurd (Option.some.inj h) (by decide)
  · intro hty
    unfold formattedAmount
    rw [if_pos hty]
    simp [String.data_append]
  · unfold formattedAmount
    dsimp only
    rw [Int.natAbs_neg]

/-- Transfer document with a positive amount. -/
def txTransferPos : Transaction :=
  { baseTx with type := TxType.transfer, amount := 30 }

/-- Witness for C10 at a concrete transfer document with amount 30: the
rendering starts with a minus sign even though the amount is positive. -/
theorem formatted_amount_sign_witness :
    (formattedAmount txTransferPos).data.head? = some '-' :=
  (formatted_amount_sign txTransferPos).2.2.1 rfl (by decide)

/-- C7: addTag appends only the lowercased tag and leaves the tag set
unchanged when the lowercased tag is already present, and removeTag
filters out the lowercased tag and leaves the document unchanged when the
tag is absent. -/
theorem tag_ops_lowercased_idempotent (now : DateT) (t u : Transaction)
    (s : String) :
    (addTag now t s = Except.ok u →
      u.tags = if lowercase s ∈ t.tags then t.tags
        else t.tags ++ [lowercase s]) ∧
    (lowercase s ∈ t.tags → addTag now t s = save now t) ∧
    (removeTag now t s = Except.ok u →
      u.tags = t.tags.filter (fun x => x != lowercase s)) ∧
    (lowercase s ∉ t.tags → removeTag now t s = save now t) := by
  refine ⟨?_, ?_, ?_, ?_⟩
  · intro h
    unfold addTag at h
    by_cases hc : t.tags.contains (lowercase s) = true
    · rw [if_pos hc] at h
      rw [save_ok_inv h, applyPreSaveHooks_tags, if_pos (by simpa using hc)]
    · rw [if_neg hc] at h
      rw [save_ok_inv h, applyPreSaveHooks_tags, if_neg (by simpa using hc)]
  · intro hmem
    unfold addTag
    rw [if_pos (by simpa using hmem)]
  · intro h
    unfold removeTag at h
    rw [save_ok_inv h, applyPreSaveHooks_tags]
  · intro hmem
    have hf : t.tags.filter (fun x => x != lowercase s) = t.tags := by
      rw [List.filter_eq_self]
      intro a ha
      simp only [bne_iff_ne, ne_eq]
      intro he
      exact hmem (he ▸ ha)
    unfold removeTag
    rw [hf]

/-- Document already carrying the lowercase tag food. -/
def txTagged : Transaction := { baseTx with tags := ["food"] }

/-- Witness for C7: adding Food to an untagged document stores food;
adding food again is a no-op on the tag set, and removing an absent tag
is a no-op as well. -/
theorem tag_ops_lowercased_witness :
    (applyPreSaveHooks day0 { baseTx with tags := ["food"] }).tags =
      (if lowercase "Food" ∈ baseTx.tags then baseTx.tags
        else baseTx.tags ++ [lowercase "Food"]) ∧
    addTag day0 txTagged "food" = save day0 txTagged ∧
    removeTag day0 baseTx "absent" = save day0 baseTx :=
  ⟨(tag_ops_lowercased_idempotent day0 baseTx
      (applyPreSaveHooks day0 { baseTx with tags := ["food"] }) "Food").1 rfl,
    (tag_ops_lowercased_idempotent day0 txTagged
      (applyPreSaveHooks day0 txTagged) "food").2.1 (by decide),
    (tag_ops_lowercased_idempotent day0 baseTx
      (applyPreSaveHooks day0 baseTx) "absent").2.2.2 (by decide)⟩

/-- C8: create fails with the collected ValidationError when the amount
is zero, fails when the description exceeds 200 characters, and when both
constraints are violated the error lists both messages rather than
stopping at the first field. -/
theorem create_collects_validation_errors (now : DateT) (t : Transaction) :
    (t.amount = 0 → create now t = Except.error (validateTx t) ∧
      "Amount cannot be zero" ∈ validateTx t) ∧
    (200 < t.description.length →
      create now t = Except.error (validateTx t) ∧
      "Description cannot exceed 200 characters" ∈ validateTx t) ∧
    (t.amount = 0 ∧ 200 < t.description.length →
      create now t = Except.error (validateTx t) ∧
      "Amount cannot be zero" ∈ validateTx t ∧
      "Description cannot exceed 200 characters" ∈ validateTx t) := by
  have hmem0 : t.amount = 0 → "Amount cannot be zero" ∈ validateTx t := by
    intro h
    unfold validateTx
    simp [h]
  have hmemd : 200 < t.description.length →
      "Description cannot exceed 200 characters" ∈ validateTx t := by
    intro h
    unfold validateTx
    simp [h]
  refine ⟨fun h => ?_, fun h => ?_, fun h => ?_⟩
  · exact ⟨create_error_of_validate_ne_nil (List.ne_nil_of_mem (hmem0 h)),
      hmem0 h⟩
  · exact ⟨create_error_of_validate_ne_nil (List.ne_nil_of_mem (hmemd h)),
      hmemd h⟩
  · exact ⟨create_error_of_validate_ne_nil (List.ne_nil_of_mem (hmem0 h.1)),
      hmem0 h.1, hmemd h.2⟩

/-- Description of 201 characters. -/
def longDescription : String := String.mk (List.replicate 201 'a')

/-- Document violating both the non-zero amount constraint and the
description length limit. -/
def txInvalid : Transaction :=
  { baseTx with amount := 0, description := longDescription }

/-- Witness for C8 at a concrete document with amount 0 and a 201
character description: create fails and the error lists both messages. -/
theorem create_collects_validation_errors_witness :
    create day0 txInvalid = Except.error (validateTx txInvalid) ∧
    "Amount cannot be zero" ∈ validateTx txInvalid ∧
    "Description cannot exceed 200 characters" ∈ validateTx txInvalid :=
  (create_collects_validation_errors day0 txInvalid).2.2 ⟨rfl, by decide⟩

/-- First document carrying the bank-supplied external id plaid-dup. -/
def tx1 : Transaction :=
  { baseTx with _id := some 1, plaidTransactionId := some "plaid-dup" }

/-- Second document carrying the same external id plaid-dup. -/
def tx2 : Transaction :=
  { baseTx with
    _id := some 2
    plaidTransactionId := some "plaid-dup"
    amount := -30 }

/-- C1 counterexample: the index on plaidTransactionId is sparse but not
unique, so inserting a second valid document with the same present
externalId also succeeds and the collection then holds two documents with
that externalId, contrary to the claim that the second insert fails. -/
theorem externalId_duplicate_second_insert_succeeds :
    insert day0 [] tx1 = Except.ok [tx1] ∧
    insert day0 [tx1] tx2 = Except.ok [tx1, tx2] ∧
    tx1.plaidTransactionId = some "plaid-dup" ∧
    tx2.plaidTransactionId = some "plaid-dup" :=
  ⟨rfl, rfl, rfl, rfl⟩

/-- C1 amended: because the externalId index is sparse and not unique, an
insert succeeds whenever document validation passes, regardless of the
documents already in the collection, so duplicate externalIds are
accepted and never fail the second insert. -/
theorem insert_ignores_externalId_duplicates (now : DateT)
    (coll : List Transaction) (t : Transaction) (h : validateTx t = []) :
    insert now coll t = Except.ok (coll ++ [applyPreSaveHooks now t]) := by
  have hsave : save now t = Except.ok (applyPreSaveHooks now t) := by
    unfold save
    rw [h]
  unfold insert
  rw [hsave]
  simp [plaidTransactionIdIndexUnique]

/-- Witness for the amended C1: inserting tx2 into a collection already
holding tx1 with the same externalId succeeds. -/
theorem insert_ignores_externalId_duplicates_witness :
    validateTx tx2 = [] ∧
    insert day0 [tx1] tx2 =
      Except.ok ([tx1] ++ [applyPreSaveHooks day0 tx2]) :=
  ⟨rfl, insert_ignores_externalId_duplicates day0 [tx1] tx2 rfl⟩

/-- C3: getSpendingByCategory produces rows whose categories are exactly
the distinct primary categories of the expense transactions of the user
dated in the inclusive range (each category exactly once, non-expense
transactions excluded), each row carrying the sum of absolute amounts and
the count of its group, with the rows sorted by total amount descending. -/
theorem spending_by_category_correct (txs : List Transaction) (userId : Nat)
    (startDate endDate : DateT) :
    ((getSpendingByCategory txs userId startDate endDate).map
        CategorySpending.category).Nodup ∧
    (∀ c : String,
      c ∈ (getSpendingByCategory txs userId startDate endDate).map
          CategorySpending.category ↔
        c ∈ (txs.filter (spendingMatch userId startDate endDate)).map
          (fun t => t.category.primary)) ∧
    (∀ g ∈ getSpendingByCategory txs userId startDate endDate,
      g.totalAmount =
        (((txs.filter (spendingMatch userId startDate endDate)).filter
            (fun t => t.category.primary == g.category)).map
          (fun t => |t.amount|)).sum ∧
      g.count =
        ((txs.filter (spendingMatch userId startDate endDate)).filter
          (fun t => t.category.primary == g.category)).length) ∧
    (getSpendingByCategory txs userId startDate endDate).Pairwise
      (fun a b => b.totalAmount ≤ a.totalAmount) := by
  obtain ⟨h1, h2, h3, h4⟩ :=
    grouped_sorted_spec spendingGE
      (fun t : Transaction => t.category.primary)
      (spendingGroup (txs.filter (spendingMatch userId startDate endDate)))
      CategorySpending.category (fun _ => rfl)
      (txs.filter (spendingMatch userId startDate endDate))
  refine ⟨h1, h2, ?_, h4⟩
  intro g hg
  obtain ⟨k, _, rfl⟩ := h3 g hg
  exact ⟨rfl, rfl⟩

/-- Second Food expense of the spending scenario. -/
def txFood2 : Transaction := { baseTx with _id := some 2, amount := -30 }

/-- Income document of the spending scenario. -/
def txSalary : Transaction :=
  { baseTx with
    _id := some 3
    type := TxType.income
    amount := 1000
    category := ⟨"Salary", none, none⟩
    description := "Pay" }

/-- Spending scenario of the specification: two Food expenses of -50 and
-30 and one income of 1000, all dated inside the queried range. -/
def txsSpending : List Transaction := [baseTx, txFood2, txSalary]

/-- Start of the queried range. -/
def rangeStart : DateT := ⟨2026, 8, 1⟩

/-- End of the queried range. -/
def rangeEnd : DateT := ⟨2026, 10, 1⟩

/-- Witness for C3 at the scenario of the specification: the result is
exactly one Food row with total 80 and count 2 (the income is excluded),
and the theorem yields its total-amount equation at that row. -/
theorem spending_by_category_witness :
    getSpendingByCategory txsSpending 1 rangeStart rangeEnd =
      [{ category := "Food", totalAmount := 80, count := 2 }] ∧
    (⟨"Food", 80, 2⟩ : CategorySpending).totalAmount =
      (((txsSpending.filter (spendingMatch 1 rangeStart rangeEnd)).filter
          (fun t => t.category.primary ==
            (⟨"Food", 80, 2⟩ : CategorySpending).category)).map
        (fun t => |t.amount|)).sum :=
  ⟨by decide,
    ((spending_by_category_correct txsSpending 1 rangeStart rangeEnd).2.2.1
      ⟨"Food", 80, 2⟩ (by decide)).1⟩

/-- Future-dated income document of the trends counterexample. -/
def txFuture : Transaction :=
  { baseTx with
    type := TxType.income
    amount := 500
    date := ⟨2030, 1, 1⟩
    category := ⟨"Salary", none, none⟩ }

/-- C4 counterexample: with current date 2026-10-11 and the default
twelve months, a transaction dated 2030-01-01 is not within the trailing
twelve months (its date is later than the current date), yet
getMonthlyTrends includes its group because the match stage has no upper
bound; the variant written after the words of the specification, bounded
above by the current date, returns no group. -/
theorem monthly_trends_future_date_counterexample :
    getMonthlyTrends [txFuture] 1 day0 12 =
      [{ year := 2030, month := 1, type := TxType.income,
          totalAmount := 500 }] ∧
    claimedWithinTrailingMonths day0 12 txFuture.date = false ∧
    getMonthlyTrendsClaimed [txFuture] 1 day0 12 = [] :=
  ⟨by decide, by decide, by decide⟩

/-- C4 amended: getMonthlyTrends groups the transactions of the user
dated on or after the instant N months before the current date (no upper
bound, so future-dated transactions are included) by (calendar year,
calendar month, type), one group per distinct key, sums the signed
amounts within each group, and returns the groups sorted by year then
month ascending; the default month count is twelve. -/
theorem monthly_trends_correct (txs : List Transaction) (userId : Nat)
    (now : DateT) (months : Nat) :
    ((getMonthlyTrends txs userId now months).map
        (fun g => (g.year, g.month, g.type))).Nodup ∧
    (∀ k : Int × Nat × TxType,
      k ∈ (getMonthlyTrends txs userId now months).map
          (fun g => (g.year, g.month, g.type)) ↔
        k ∈ (txs.filter
            (fun t => t.user == userId &&
              DateT.leb (monthsAgo now months) t.date)).map
          (fun t => (t.date.year, t.date.month, t.type))) ∧
    (∀ g ∈ getMonthlyTrends txs userId now months,
      g.totalAmount =
        (((txs.filter
            (fun t => t.user == userId &&
              DateT.leb (monthsAgo now months) t.date)).filter
          (fun t => (t.date.year, t.date.month, t.type) ==
            (g.year, g.month, g.type))).map Transaction.amount).sum) ∧
    (getMonthlyTrends txs userId now months).Pairwise
      (fun a b => a.year < b.year ∨ (a.year = b.year ∧ a.month ≤ b.month)) ∧
    getMonthlyTrendsDefault txs userId now =
      getMonthlyTrends txs userId now 12 := by
  obtain ⟨h1, h2, h3, h4⟩ :=
    grouped_sorted_spec trendChron
      (fun t : Transaction => (t.date.year, t.date.month, t.type))
      (trendGroup (txs.filter
        (fun t => t.user == userId &&
          DateT.leb (monthsAgo now months) t.date)))
      (fun g => (g.year, g.month, g.type)) (fun _ => rfl)
      (txs.filter
        (fun t => t.user == userId &&
          DateT.leb (monthsAgo now months) t.date))
  refine ⟨h1, h2, ?_, h4, rfl⟩
  intro g hg
  obtain ⟨k, _, rfl⟩ := h3 g hg
  rfl

/-- Income of the first month of the trends scenario. -/
def txMonth1 : Transaction :=
  { baseTx with
    type := TxType.income
    amount := 1000
    date := ⟨2026, 8, 5⟩
    category := ⟨"Salary", none, none⟩ }

/-- Expense of the second month of the trends scenario. -/
def txMonth2 : Transaction := { baseTx with _id := some 2, date := ⟨2026, 9, 5⟩ }

/-- Trends scenario of the specification: one income of 1000 in the first
month and one expense of -50 in the following month. -/
def txsTrend : List Transaction := [txMonth1, txMonth2]

/-- Witness for the amended C4 at the scenario of the specification: two
grouped rows in chronological order with signed totals 1000 and -50, and
the theorem yields the total-amount equation at the first row. -/
theorem monthly_trends_correct_witness :
    getMonthlyTrends txsTrend 1 day0 12 =
      [{ year := 2026, month := 8, type := TxType.income,
          totalAmount := 1000 },
        { year := 2026, month := 9, type := TxType.expense,
          totalAmount := -50 }] ∧
    (⟨2026, 8, TxType.income, 1000⟩ : MonthlyTrend).totalAmount =
      (((txsTrend.filter
          (fun t => t.user == 1 && DateT.leb (monthsAgo day0 12) t.date)).filter
        (fun t => (t.date.year, t.date.month, t.type) ==
          ((2026 : Int), 8, TxType.income))).map Transaction.amount).sum :=
  ⟨by decide,
    (monthly_trends_correct txsTrend 1 day0 12).2.2.1
      ⟨2026, 8, TxType.income, 1000⟩ (by decide)⟩

end FinanceTracker
